import Mathlib

/-!
Verification of the pool-measurement application core (src/app.py).

The app is a single-file Streamlit application backed by PostgreSQL.  This
development shallowly embeds its core logic: the derived bound-chlorine
calculation (zapis_merania), the free-chlorine cell-colouring classifier
(farba_volny_chlor), the period query and export generator (export_merani),
the default-admin bootstrap (ensure_default_admin), the admin-only user
administration page (sprava_pouzivatelov), and the login flow (login_screen).

Modelling conventions:
  - decimal values (chlorine, pH, temperature) are rationals;
  - the time-of-day column, stored by the source as a zero-padded "HH:MM"
    string and ordered lexicographically by the SQL ORDER BY, is modelled as
    minutes since midnight (lexicographic order on zero-padded "HH:MM"
    strings coincides with numeric order on minutes);
  - the database tables are lists of records; single-statement SQL queries
    become filter / sort / find? over those lists;
  - bcrypt hashing and verification are opaque function parameters
    (hashpw, checkpw); checkpw returns none when verification raises,
    mirroring the try/except around bcrypt.checkpw;
  - Streamlit calls (st.error, st.warning, st.success, download buttons)
    become explicit result values carrying the exact message strings of the
    source.
-/

/-- Calendar date of a reading (column measurements.date). -/
structure Datum where
  rok : Nat
  mesiac : Nat
  den : Nat
deriving DecidableEq, Repr

/-- One row of the measurements table, as selected by the history, chart and
export queries.  The time column is minutes since midnight (see module
comment). -/
structure Meranie where
  datum : Datum
  den : String
  cas : Nat
  free_chlorine : ℚ
  total_chlorine : ℚ
  bound_chlorine : ℚ
  ph : ℚ
  temperature : Option ℚ
  note : String
  user_id : Option Nat
deriving DecidableEq, Repr

/-- One row of the users table. -/
structure Pouzivatel where
  id : Nat
  username : String
  password_hash : String
  rola : String
deriving DecidableEq, Repr

/-- Line 180 of zapis_merania: viazany = max(celkovy - volny, 0.0). -/
def viazany_chlor (volny celkovy : ℚ) : ℚ :=
  max (celkovy - volny) 0

/-- Rounding to two decimal places, as performed by the display format
f-string with .2f and by the NUMERIC(4,2) column type. -/
def round2 (q : ℚ) : ℚ :=
  ((round (q * 100) : ℤ) : ℚ) / 100

/-- farba_volny_chlor (lines 103-116): CSS cell styling from the free
chlorine value.  The source first coerces the cell to float (returning ""
when that fails); here the input is already numeric. -/
def farba_volny_chlor (v : ℚ) : String :=
  if v ≤ 3/10 then "background-color: #cce6ff"
  else if 4/10 ≤ v ∧ v ≤ 7/10 then ""
  else if 8/10 ≤ v then "background-color: #fff3b0"
  else ""

/-- The SQL ordering ORDER BY date ASC, time ASC as a boolean relation:
lexicographic on (year, month, day) and then on the time of day. -/
def poradieLe (a b : Meranie) : Bool :=
  decide (a.datum.rok < b.datum.rok ∨ (a.datum.rok = b.datum.rok ∧
    (a.datum.mesiac < b.datum.mesiac ∨ (a.datum.mesiac = b.datum.mesiac ∧
      (a.datum.den < b.datum.den ∨ (a.datum.den = b.datum.den ∧
        a.cas ≤ b.cas))))))

/-- The period query of export_merani (lines 355-377) minus the join:
WHERE EXTRACT(YEAR FROM date) = rok AND EXTRACT(MONTH FROM date) = mesiac
ORDER BY date ASC, time ASC. -/
def listForPeriod (store : List Meranie) (rok mesiac : Nat) : List Meranie :=
  (store.filter (fun m => m.datum.rok == rok && m.datum.mesiac == mesiac)).mergeSort
    poradieLe

theorem poradieLe_trans (a b c : Meranie) :
    poradieLe a b = true → poradieLe b c = true → poradieLe a c = true := by
  simp only [poradieLe, decide_eq_true_eq]
  omega

theorem poradieLe_total (a b : Meranie) :
    (poradieLe a b || poradieLe b a) = true := by
  simp only [poradieLe, Bool.or_eq_true, decide_eq_true_eq]
  omega

/-- Shared styling fact: every value strictly between 0.3 and 0.8 gets the
empty styling string. -/
theorem farba_prazdna_medzi (v : ℚ) (h1 : 3/10 < v) (h2 : v < 8/10) :
    farba_volny_chlor v = "" := by
  unfold farba_volny_chlor
  split_ifs with ha hb hc
  · linarith
  · rfl
  · linarith
  · rfl

/-- C1: before insert, zapis_merania derives bound chlorine as
max(total - free, 0); it is therefore nonnegative, equals total - free
whenever total is at least free, and is already exact at two decimal places
whenever the inputs are two-decimal values. -/
theorem viazany_chlor_spec (volny celkovy : ℚ)
    (hv : 0 ≤ volny) (hc : 0 ≤ celkovy) :
    viazany_chlor volny celkovy = max (celkovy - volny) 0 ∧
    0 ≤ viazany_chlor volny celkovy ∧
    (volny ≤ celkovy → viazany_chlor volny celkovy = celkovy - volny) ∧
    (∀ a b : ℤ, volny = (a : ℚ) / 100 → celkovy = (b : ℚ) / 100 →
      round2 (viazany_chlor volny celkovy) = viazany_chlor volny celkovy) := by
  refine ⟨rfl, le_max_right _ _, fun h => max_eq_left (by linarith), ?_⟩
  rintro a b rfl rfl
  have h100 : (0:ℚ) ≤ 100 := by norm_num
  have hsub : (b : ℚ) / 100 - (a : ℚ) / 100 = ((b - a : ℤ) : ℚ) / 100 := by
    push_cast; ring
  have hmax : viazany_chlor ((a : ℚ) / 100) ((b : ℚ) / 100)
      = ((max (b - a) 0 : ℤ) : ℚ) / 100 := by
    rw [viazany_chlor, hsub]
    rw [show (0:ℚ) = (0:ℚ)/100 by norm_num, max_div_div_right h100]
    push_cast
    norm_num
  rw [hmax, round2]
  have : ((max (b - a) 0 : ℤ) : ℚ) / 100 * 100 = ((max (b - a) 0 : ℤ) : ℚ) := by
    field_simp
  rw [this, round_intCast]

theorem viazany_chlor_spec_witness :
    viazany_chlor (1/2) (9/10) = max ((9:ℚ)/10 - 1/2) 0 ∧
    0 ≤ viazany_chlor (1/2) (9/10) ∧
    viazany_chlor (1/2) (9/10) = (9:ℚ)/10 - 1/2 := by
  have h := viazany_chlor_spec (1/2) (9/10) (by norm_num) (by norm_num)
  exact ⟨h.1, h.2.1, h.2.2.1 (by norm_num)⟩

/-- C2 counterexample: a negative free-chlorine value receives the Low (blue)
styling from farba_volny_chlor, not the empty (unclassified) styling the
claim assigns to every v < 0. -/
theorem farba_volny_chlor_zaporne_protipriklad :
    farba_volny_chlor (-1) = "background-color: #cce6ff" ∧
    farba_volny_chlor (-1) ≠ "" := by
  constructor
  · unfold farba_volny_chlor
    rw [if_pos (by norm_num)]
  · unfold farba_volny_chlor
    rw [if_pos (by norm_num)]
    decide

/-- C2 amended: farba_volny_chlor returns the Low (blue) styling exactly when
v is at most 0.3 (negative values included), the High (yellow) styling
exactly when v is at least 0.8, and the empty styling exactly when
0.3 < v < 0.8 (which covers the Normal band 0.4 to 0.7 and the two
unclassified gaps). -/
theorem farba_volny_chlor_pasma (v : ℚ) :
    (farba_volny_chlor v = "background-color: #cce6ff" ↔ v ≤ 3/10) ∧
    (farba_volny_chlor v = "background-color: #fff3b0" ↔ 8/10 ≤ v) ∧
    (farba_volny_chlor v = "" ↔ 3/10 < v ∧ v < 8/10) := by
  by_cases h1 : v ≤ 3/10
  · have hv : farba_volny_chlor v = "background-color: #cce6ff" := by
      unfold farba_volny_chlor; rw [if_pos h1]
    refine ⟨iff_of_true hv h1, iff_of_false ?_ (by intro h; linarith), ?_⟩
    · rw [hv]; decide
    · exact iff_of_false (by rw [hv]; decide) (by rintro ⟨h, -⟩; linarith)
  · push_neg at h1
    by_cases h3 : 8/10 ≤ v
    · have hv : farba_volny_chlor v = "background-color: #fff3b0" := by
        unfold farba_volny_chlor
        rw [if_neg (by linarith), if_neg (by rintro ⟨-, h⟩; linarith),
          if_pos h3]
      refine ⟨iff_of_false ?_ (by intro h; linarith), iff_of_true hv h3, ?_⟩
      · rw [hv]; decide
      · exact iff_of_false (by rw [hv]; decide)
          (by rintro ⟨-, h⟩; linarith)
    · push_neg at h3
      have hv : farba_volny_chlor v = "" := farba_prazdna_medzi v h1 h3
      refine ⟨iff_of_false (by rw [hv]; decide) (by intro h; linarith),
        iff_of_false (by rw [hv]; decide) (by intro h; linarith),
        iff_of_true hv ⟨h1, h3⟩⟩

/-- C10: a Normal-band value and a value in the 0.3 to 0.4 gap receive the
identical empty styling from farba_volny_chlor, so they are indistinguishable
in its output. -/
theorem farba_normal_medzera_nerozlisitelne (v w : ℚ)
    (hv1 : 4/10 ≤ v) (hv2 : v ≤ 7/10) (hw1 : 3/10 < w) (hw2 : w < 4/10) :
    farba_volny_chlor v = farba_volny_chlor w ∧ farba_volny_chlor v = "" := by
  have h1 : farba_volny_chlor v = "" :=
    farba_prazdna_medzi v (by linarith) (by linarith)
  have h2 : farba_volny_chlor w = "" :=
    farba_prazdna_medzi w hw1 (by linarith)
  exact ⟨h1.trans h2.symm, h1⟩

theorem farba_normal_medzera_nerozlisitelne_witness :
    farba_volny_chlor (1/2) = farba_volny_chlor (35/100) ∧
    farba_volny_chlor (1/2) = "" :=
  farba_normal_medzera_nerozlisitelne (1/2) (35/100)
    (by norm_num) (by norm_num) (by norm_num) (by norm_num)

/-- C4: the period query returns exactly the stored records whose date has
the requested year and month, sorted by date ascending then time ascending,
and the empty store yields the empty result (a value, not an error). -/
theorem listForPeriod_spec (store : List Meranie) (rok mesiac : Nat) :
    (∀ m : Meranie, m ∈ listForPeriod store rok mesiac ↔
      (m ∈ store ∧ m.datum.rok = rok ∧ m.datum.mesiac = mesiac)) ∧
    List.Sorted (fun a b => poradieLe a b = true)
      (listForPeriod store rok mesiac) ∧
    listForPeriod [] rok mesiac = [] := by
  refine ⟨fun m => ?_, ?_, by simp [listForPeriod]⟩
  · rw [listForPeriod, List.mem_mergeSort, List.mem_filter]
    simp [Bool.and_eq_true]
  · exact List.sorted_mergeSort poradieLe_trans poradieLe_total _

/-- The LEFT JOIN users u ON m.user_id = u.id of the export query: resolve
the recording user's display name, or none when the reference dangles. -/
def usernameFor (users : List Pouzivatel) (uid : Option Nat) : Option String :=
  match uid with
  | none => none
  | some i => (users.find? (fun u => u.id == i)).map (fun u => u.username)

/-- One data row of the export DataFrame (lines 383-397): the ten selected
columns, with the joined username in the last position. -/
structure ExportRiadok where
  datum : Datum
  den : String
  cas : Nat
  free_chlorine : ℚ
  total_chlorine : ℚ
  bound_chlorine : ℚ
  ph : ℚ
  temperature : Option ℚ
  note : String
  zadal : Option String
deriving DecidableEq, Repr

def toExportRiadok (users : List Pouzivatel) (m : Meranie) : ExportRiadok :=
  { datum := m.datum, den := m.den, cas := m.cas,
    free_chlorine := m.free_chlorine, total_chlorine := m.total_chlorine,
    bound_chlorine := m.bound_chlorine, ph := m.ph,
    temperature := m.temperature, note := m.note,
    zadal := usernameFor users m.user_id }

/-- Column headers of the export DataFrame, in source order. -/
def exportHlavicka : List String :=
  ["Dátum", "Deň", "Čas", "Voľný Cl", "Celkový Cl", "Viazaný Cl", "pH",
   "Teplota vody", "Poznámka", "Zadal"]

/-- The CSV download artifact (lines 399-406). -/
structure CsvSubor where
  hlavicka : List String
  riadky : List ExportRiadok
  mimeTyp : String
  nazovSuboru : String
deriving DecidableEq, Repr

/-- The spreadsheet download artifact (lines 408-421). -/
structure XlsxSubor where
  harok : String
  hlavicka : List String
  riadky : List ExportRiadok
  mimeTyp : String
  nazovSuboru : String
deriving DecidableEq, Repr

/-- Outcome of pressing the export button: either the no-data warning
(st.warning, line 380) or the two download artifacts. -/
inductive ExportVysledok where
  | ziadneData (varovanie : String)
  | subory (csvS : CsvSubor) (xlsxS : XlsxSubor)
deriving DecidableEq, Repr

/-- The CSV payload built from the export DataFrame (df.to_csv, lines
399-406): header row, data rows in query order, text/csv MIME, file name
with the year and the non-zero-padded month. -/
def csvArtefakt (riadky : List ExportRiadok) (rok mesiac : Nat) : CsvSubor :=
  { hlavicka := exportHlavicka, riadky := riadky, mimeTyp := "text/csv",
    nazovSuboru :=
      "bazen_merania_" ++ toString rok ++ "_" ++ toString mesiac ++ ".csv" }

/-- The spreadsheet payload built from the same DataFrame (df.to_excel,
lines 408-421): single sheet "Merania", same header and row order. -/
def xlsxArtefakt (riadky : List ExportRiadok) (rok mesiac : Nat) : XlsxSubor :=
  { harok := "Merania", hlavicka := exportHlavicka, riadky := riadky,
    mimeTyp :=
      "application/vnd.openxmlformats-officedocument.spreadsheetml.sheet",
    nazovSuboru :=
      "bazen_merania_" ++ toString rok ++ "_" ++ toString mesiac ++ ".xlsx" }

/-- export_merani (lines 345-421): run the period query with the user join;
if no rows, warn and generate no files; otherwise build the CSV and the
spreadsheet from the same DataFrame. -/
def export_merani (users : List Pouzivatel) (store : List Meranie)
    (rok mesiac : Nat) : ExportVysledok :=
  if (listForPeriod store rok mesiac).map (toExportRiadok users) = [] then
    ExportVysledok.ziadneData "V tomto mesiaci nie sú žiadne dáta."
  else
    ExportVysledok.subory
      (csvArtefakt ((listForPeriod store rok mesiac).map (toExportRiadok users))
        rok mesiac)
      (xlsxArtefakt ((listForPeriod store rok mesiac).map (toExportRiadok users))
        rok mesiac)

/-- C3: whenever the period has at least one matching record, the export
produces both artifacts from the identical row set: identical row list
(hence identical count, order, and column values, with the same column
header order), equal to the joined period query result. -/
theorem export_merani_zhoda (users : List Pouzivatel) (store : List Meranie)
    (rok mesiac : Nat)
    (h : ∃ m ∈ store, m.datum.rok = rok ∧ m.datum.mesiac = mesiac) :
    ∃ c x, export_merani users store rok mesiac = ExportVysledok.subory c x ∧
      c.hlavicka = x.hlavicka ∧ c.riadky = x.riadky ∧
      c.riadky.length = x.riadky.length ∧
      c.riadky = (listForPeriod store rok mesiac).map (toExportRiadok users) := by
  obtain ⟨m, hm, hr, hmes⟩ := h
  have hmem : m ∈ listForPeriod store rok mesiac := by
    rw [listForPeriod, List.mem_mergeSort, List.mem_filter]
    simp [hm, hr, hmes]
  have hne : (listForPeriod store rok mesiac).map (toExportRiadok users) ≠ [] := by
    intro hcon
    rw [List.map_eq_nil_iff] at hcon
    rw [hcon] at hmem
    exact List.not_mem_nil m hmem
  refine ⟨csvArtefakt ((listForPeriod store rok mesiac).map
      (toExportRiadok users)) rok mesiac,
    xlsxArtefakt ((listForPeriod store rok mesiac).map
      (toExportRiadok users)) rok mesiac,
    ?_, rfl, rfl, rfl, rfl⟩
  rw [export_merani, if_neg hne]

/-- A sample measurement used to instantiate export theorems at concrete
inputs. -/
def vzoroveMeranie : Meranie :=
  { datum := { rok := 2024, mesiac := 5, den := 10 }, den := "Piatok",
    cas := 600, free_chlorine := 1/2, total_chlorine := 9/10,
    bound_chlorine := 2/5, ph := 7, temperature := some 25, note := "",
    user_id := some 1 }

theorem export_merani_zhoda_witness :
    ∃ c x, export_merani [] [vzoroveMeranie] 2024 5 =
      ExportVysledok.subory c x ∧
      c.hlavicka = x.hlavicka ∧ c.riadky = x.riadky ∧
      c.riadky.length = x.riadky.length ∧
      c.riadky = (listForPeriod [vzoroveMeranie] 2024 5).map
        (toExportRiadok []) :=
  export_merani_zhoda [] [vzoroveMeranie] 2024 5
    ⟨vzoroveMeranie, List.mem_singleton.mpr rfl, rfl, rfl⟩

/-- C7: when the period query returns no records, export_merani signals the
no-data warning (a constructor distinct from any file-producing outcome) and
generates neither the CSV nor the spreadsheet artifact. -/
theorem export_merani_ziadne_data (users : List Pouzivatel)
    (store : List Meranie) (rok mesiac : Nat)
    (h : listForPeriod store rok mesiac = []) :
    export_merani users store rok mesiac =
      ExportVysledok.ziadneData "V tomto mesiaci nie sú žiadne dáta." ∧
    ∀ c x, export_merani users store rok mesiac ≠ ExportVysledok.subory c x := by
  have hmain : export_merani users store rok mesiac =
      ExportVysledok.ziadneData "V tomto mesiaci nie sú žiadne dáta." := by
    rw [export_merani]
    simp [h]
  refine ⟨hmain, fun c x hcon => ?_⟩
  rw [hmain] at hcon
  exact ExportVysledok.noConfusion hcon

theorem export_merani_ziadne_data_witness :
    export_merani [] [] 2024 5 =
      ExportVysledok.ziadneData "V tomto mesiaci nie sú žiadne dáta." :=
  (export_merani_ziadne_data [] [] 2024 5 (by simp [listForPeriod])).1

/-- ensure_default_admin (lines 75-93): count the users; when the table is
empty, insert the fixed admin/admin123 account (SERIAL id 1) with role
admin; otherwise do nothing. -/
def ensure_default_admin (hashpw : String → String)
    (users : List Pouzivatel) : List Pouzivatel :=
  if users.length = 0 then
    [{ id := 1, username := "admin", password_hash := hashpw "admin123",
       rola := "admin" }]
  else users

/-- C5: bootstrap on an empty user store creates exactly one user, the
default admin with username "admin" and the hash of password "admin123";
on a non-empty store it changes nothing; and it is idempotent. -/
theorem ensure_default_admin_spec (hashpw : String → String)
    (users : List Pouzivatel) :
    (users = [] → ensure_default_admin hashpw users =
      [{ id := 1, username := "admin", password_hash := hashpw "admin123",
         rola := "admin" }]) ∧
    (users ≠ [] → ensure_default_admin hashpw users = users) ∧
    ensure_default_admin hashpw (ensure_default_admin hashpw users) =
      ensure_default_admin hashpw users := by
  refine ⟨?_, ?_, ?_⟩
  · rintro rfl; rfl
  · intro h
    rw [ensure_default_admin, if_neg (by simpa [List.length_eq_zero] using h)]
  · cases users with
    | nil => rfl
    | cons a l =>
      have h1 : ensure_default_admin hashpw (a :: l) = a :: l := by
        rw [ensure_default_admin, if_neg (by simp)]
      rw [h1]
      exact h1

theorem ensure_default_admin_spec_witness :
    ensure_default_admin (fun s => s ++ "#h") [] =
      [{ id := 1, username := "admin", password_hash := "admin123" ++ "#h",
         rola := "admin" }] ∧
    ensure_default_admin (fun s => s ++ "#h")
        [{ id := 7, username := "x", password_hash := "y", rola := "user" }] =
      [{ id := 7, username := "x", password_hash := "y", rola := "user" }] :=
  ⟨(ensure_default_admin_spec (fun s => s ++ "#h") []).1 rfl,
   (ensure_default_admin_spec (fun s => s ++ "#h")
      [{ id := 7, username := "x", password_hash := "y", rola := "user" }]).2.1
      (by decide)⟩

/-- Outcome messages of the add-user form (lines 453-472). -/
inductive PridajVysledok where
  | prazdnePolia (sprava : String)
  | uspech (sprava : String)
  | chyba (sprava : String)
deriving DecidableEq, Repr

/-- The single INSERT INTO users statement (lines 461-467).  The UNIQUE
constraint on username (init_db, line 45) makes the statement raise on a
duplicate; the raised message is the store's own text, opaque to the app. -/
def vlozPouzivatela (users : List Pouzivatel) (u : Pouzivatel) :
    Except String (List Pouzivatel) :=
  if users.any (fun x => x.username == u.username) then
    Except.error "duplicate key value violates unique constraint"
  else Except.ok (users ++ [u])

/-- The add-user handler of sprava_pouzivatelov (lines 453-472): reject empty
fields without touching the store; otherwise hash the password and run the
insert, wrapping ANY raised store error into the one generic message (the
catch-all handler of line 471). -/
def pridaj_pouzivatela (hashpw : String → String) (users : List Pouzivatel)
    (noveId : Nat) (meno heslo rola : String) :
    List Pouzivatel × PridajVysledok :=
  if meno = "" ∨ heslo = "" then
    (users, PridajVysledok.prazdnePolia "Meno aj heslo musia byť vyplnené.")
  else
    match vlozPouzivatela users
        { id := noveId, username := meno, password_hash := hashpw heslo,
          rola := rola } with
    | Except.ok users2 =>
        (users2, PridajVysledok.uspech
          ("Používateľ \x27" ++ meno ++ "\x27 bol pridaný."))
    | Except.error e =>
        (users, PridajVysledok.chyba
          ("Chyba pri pridávaní používateľa: " ++ e))

/-- Outcome of the user-administration page. -/
inductive SpravaVysledok where
  | zamietnute (dovod : String)
  | povolene (zoznam : List Pouzivatel) (vysledokPridania : Option PridajVysledok)
deriving DecidableEq, Repr

/-- sprava_pouzivatelov (lines 426-472): non-admin roles are turned away at
the top with an explicit error message and nothing else happens; admins get
the user listing (SELECT ... ORDER BY id) and, when the form was submitted,
the add-user handler runs. -/
def sprava_pouzivatelov (hashpw : String → String) (rola : String)
    (users : List Pouzivatel)
    (poziadavka : Option (Nat × String × String × String)) :
    List Pouzivatel × SpravaVysledok :=
  if rola ≠ "admin" then
    (users, SpravaVysledok.zamietnute "Nemáte oprávnenie na prístup.")
  else
    match poziadavka with
    | none =>
        (users, SpravaVysledok.povolene
          (users.mergeSort (fun a b => decide (a.id ≤ b.id))) none)
    | some (noveId, meno, heslo, rolaNova) =>
        ((pridaj_pouzivatela hashpw users noveId meno heslo rolaNova).1,
         SpravaVysledok.povolene
           (users.mergeSort (fun a b => decide (a.id ≤ b.id)))
           (some (pridaj_pouzivatela hashpw users noveId meno heslo rolaNova).2))

/-- C6: the user-administration operations are permitted exactly for the
admin role; every other role is denied with the explicit reason string (a
non-empty message) and the page neither lists users nor changes the user
store. -/
theorem sprava_pouzivatelov_spec (hashpw : String → String) (rola : String)
    (users : List Pouzivatel)
    (poziadavka : Option (Nat × String × String × String)) :
    ((∃ z o, (sprava_pouzivatelov hashpw rola users poziadavka).2 =
        SpravaVysledok.povolene z o) ↔ rola = "admin") ∧
    (rola ≠ "admin" →
      sprava_pouzivatelov hashpw rola users poziadavka =
        (users, SpravaVysledok.zamietnute "Nemáte oprávnenie na prístup.") ∧
      "Nemáte oprávnenie na prístup." ≠ "") := by
  by_cases hr : rola = "admin"
  · refine ⟨⟨fun _ => hr, fun _ => ?_⟩, fun hcon => absurd hr hcon⟩
    rw [sprava_pouzivatelov.eq_def, if_neg (by simp [hr])]
    cases poziadavka with
    | none => exact ⟨_, _, rfl⟩
    | some p =>
      obtain ⟨i, m, h2, r⟩ := p
      exact ⟨_, _, rfl⟩
  · have hout : sprava_pouzivatelov hashpw rola users poziadavka =
        (users, SpravaVysledok.zamietnute "Nemáte oprávnenie na prístup.") := by
      rw [sprava_pouzivatelov.eq_def, if_pos hr]
    refine ⟨⟨?_, fun h => absurd h hr⟩, fun _ => ⟨hout, by decide⟩⟩
    rintro ⟨z, o, hz⟩
    rw [hout] at hz
    exact SpravaVysledok.noConfusion hz

theorem sprava_pouzivatelov_spec_witness :
    sprava_pouzivatelov (fun s => s) "user"
        [{ id := 1, username := "admin", password_hash := "h", rola := "admin" }]
        none =
      ([{ id := 1, username := "admin", password_hash := "h", rola := "admin" }],
       SpravaVysledok.zamietnute "Nemáte oprávnenie na prístup.") ∧
    ∃ z o, (sprava_pouzivatelov (fun s => s) "admin" [] none).2 =
      SpravaVysledok.povolene z o :=
  ⟨((sprava_pouzivatelov_spec (fun s => s) "user"
      [{ id := 1, username := "admin", password_hash := "h", rola := "admin" }]
      none).2 (by decide)).1,
   (sprava_pouzivatelov_spec (fun s => s) "admin" [] none).1.mpr rfl⟩

/-- C8 counterexample: creating a user whose username already exists ends in
the generic store-error arm of the handler (the same arm that reports every
store exception, with the exception text appended to one fixed label); the
result type faithful to the source has no distinct duplicate-username
outcome, so the failure is a generic one. -/
theorem pridaj_pouzivatela_protipriklad :
    (pridaj_pouzivatela (fun s => s)
        [{ id := 1, username := "admin", password_hash := "h", rola := "admin" }]
        2 "admin" "x" "user").2 =
      PridajVysledok.chyba ("Chyba pri pridávaní používateľa: " ++
        "duplicate key value violates unique constraint") ∧
    ¬ ∀ s : String, (pridaj_pouzivatela (fun s => s)
        [{ id := 1, username := "admin", password_hash := "h", rola := "admin" }]
        2 "admin" "x" "user").2 ≠ PridajVysledok.chyba s := by
  refine ⟨rfl, fun hall => hall _ rfl⟩

/-- C8 amended: the add-user handler rejects a request with an empty username
or an empty password, leaving the store unchanged; when the username already
exists, the insert raises, the store is unchanged, and the handler reports
the generic store-error message (the exception text behind one fixed label),
not a distinct duplicate-username error. -/
theorem pridaj_pouzivatela_spec (hashpw : String → String)
    (users : List Pouzivatel) (noveId : Nat) (meno heslo rola : String) :
    ((meno = "" ∨ heslo = "") →
      pridaj_pouzivatela hashpw users noveId meno heslo rola =
        (users,
         PridajVysledok.prazdnePolia "Meno aj heslo musia byť vyplnené.")) ∧
    (meno ≠ "" → heslo ≠ "" → (∃ u ∈ users, u.username = meno) →
      pridaj_pouzivatela hashpw users noveId meno heslo rola =
        (users, PridajVysledok.chyba ("Chyba pri pridávaní používateľa: " ++
          "duplicate key value violates unique constraint"))) := by
  constructor
  · intro h
    rw [pridaj_pouzivatela.eq_def, if_pos h]
  · intro h1 h2 hdup
    have hany : users.any (fun x => x.username == meno) = true := by
      rw [List.any_eq_true]
      obtain ⟨u, hu, he⟩ := hdup
      exact ⟨u, hu, by simp [he]⟩
    have hv : vlozPouzivatela users
        ⟨noveId, meno, hashpw heslo, rola⟩ =
        Except.error "duplicate key value violates unique constraint" := by
      simp only [vlozPouzivatela]
      rw [if_pos hany]
    rw [pridaj_pouzivatela.eq_def, if_neg (by tauto), hv]

theorem pridaj_pouzivatela_spec_witness :
    pridaj_pouzivatela (fun s => s) [] 1 "" "pw" "user" =
      ([], PridajVysledok.prazdnePolia "Meno aj heslo musia byť vyplnené.") ∧
    pridaj_pouzivatela (fun s => s)
        [{ id := 1, username := "admin", password_hash := "h", rola := "admin" }]
        2 "admin" "pw" "user" =
      ([{ id := 1, username := "admin", password_hash := "h", rola := "admin" }],
       PridajVysledok.chyba ("Chyba pri pridávaní používateľa: " ++
         "duplicate key value violates unique constraint")) :=
  ⟨(pridaj_pouzivatela_spec (fun s => s) [] 1 "" "pw" "user").1 (Or.inl rfl),
   (pridaj_pouzivatela_spec (fun s => s)
      [{ id := 1, username := "admin", password_hash := "h", rola := "admin" }]
      2 "admin" "pw" "user").2 (by decide) (by decide)
     ⟨{ id := 1, username := "admin", password_hash := "h", rola := "admin" },
      List.mem_singleton.mpr rfl, rfl⟩⟩

/-- Outcome of pressing the login button (lines 128-152). -/
inductive LoginVysledok where
  | uspech (uid : Nat) (meno rola : String)
  | nespravneUdaje (sprava : String)
  | chybaOverenia (sprava : String)
deriving DecidableEq, Repr

/-- login_screen (lines 121-152): look the username up (SELECT ... WHERE
username = %s); a missing row and a failed bcrypt check both produce the one
generic error message; a raised bcrypt check (malformed hash, modelled by
checkpw returning none) produces a different message. -/
def login_screen (checkpw : String → String → Option Bool)
    (users : List Pouzivatel) (meno heslo : String) : LoginVysledok :=
  match users.find? (fun u => u.username == meno) with
  | none => LoginVysledok.nespravneUdaje "Nesprávne meno alebo heslo."
  | some u =>
    match checkpw heslo u.password_hash with
    | some true => LoginVysledok.uspech u.id meno u.rola
    | some false => LoginVysledok.nespravneUdaje "Nesprávne meno alebo heslo."
    | none => LoginVysledok.chybaOverenia "Chyba pri overovaní hesla."

/-- C9: a login attempt with an unknown username and a login attempt with a
known username but a rejected password produce the identical generic failure
message, so the outcome does not reveal which of the two was wrong. -/
theorem login_screen_genericka_sprava (checkpw : String → String → Option Bool)
    (users : List Pouzivatel) (meno1 heslo1 meno2 heslo2 : String)
    (u : Pouzivatel)
    (h1 : users.find? (fun x => x.username == meno1) = none)
    (h2 : users.find? (fun x => x.username == meno2) = some u)
    (h3 : checkpw heslo2 u.password_hash = some false) :
    login_screen checkpw users meno1 heslo1 =
      login_screen checkpw users meno2 heslo2 ∧
    login_screen checkpw users meno1 heslo1 =
      LoginVysledok.nespravneUdaje "Nesprávne meno alebo heslo." := by
  have e1 : login_screen checkpw users meno1 heslo1 =
      LoginVysledok.nespravneUdaje "Nesprávne meno alebo heslo." := by
    rw [login_screen.eq_def, h1]
  have e2 : login_screen checkpw users meno2 heslo2 =
      LoginVysledok.nespravneUdaje "Nesprávne meno alebo heslo." := by
    rw [login_screen.eq_def, h2]
    simp only [h3]
  exact ⟨e1.trans e2.symm, e1⟩

theorem login_screen_genericka_sprava_witness :
    login_screen (fun _ _ => some false)
        [{ id := 1, username := "admin", password_hash := "h", rola := "admin" }]
        "nikto" "x" =
      login_screen (fun _ _ => some false)
        [{ id := 1, username := "admin", password_hash := "h", rola := "admin" }]
        "admin" "zle" ∧
    login_screen (fun _ _ => some false)
        [{ id := 1, username := "admin", password_hash := "h", rola := "admin" }]
        "nikto" "x" =
      LoginVysledok.nespravneUdaje "Nesprávne meno alebo heslo." :=
  login_screen_genericka_sprava (fun _ _ => some false)
    [{ id := 1, username := "admin", password_hash := "h", rola := "admin" }]
    "nikto" "x" "admin" "zle"
    { id := 1, username := "admin", password_hash := "h", rola := "admin" }
    rfl rfl rfl

theorem listForPeriod_spec_witness :
    (vzoroveMeranie ∈ listForPeriod [vzoroveMeranie] 2024 5 ↔
      (vzoroveMeranie ∈ [vzoroveMeranie] ∧
        vzoroveMeranie.datum.rok = 2024 ∧ vzoroveMeranie.datum.mesiac = 5)) ∧
    listForPeriod [] 2024 5 = [] :=
  ⟨(listForPeriod_spec [vzoroveMeranie] 2024 5).1 vzoroveMeranie,
   (listForPeriod_spec [] 2024 5).2.2⟩
